import Mathlib

/-!
Verification of the MinCon controller (fleet state and remote-command
orchestration).  The Python sources under `controller/` are shallowly
embedded: the YAML fleet store becomes an association list of device
records, remote execution becomes an explicit oracle parameter, and each
workflow becomes a pure function that additionally reports the observable
effects (statuses written, remote operations performed).
-/

namespace MinCon

/-! ## Python string primitives

`str.strip`, `str.split(sep)` (non-empty separator) and the substring
test `pat in s` are re-implemented over `List Char` with Python's
semantics: `split` keeps empty segments, scans left to right without
overlap; `strip` removes leading and trailing whitespace
(space, tab, newline, carriage return, vertical tab, form feed). -/

/-- Characters removed by Python `str.strip()`. -/
def pyIsSpace (c : Char) : Bool :=
  c == ' ' || c == '\t' || c == '\n' || c == '\r' || c == '\x0b' || c == '\x0c'

/-- Python `str.strip()`. -/
def pyStrip (s : String) : String :=
  String.mk (((s.data.dropWhile pyIsSpace).reverse.dropWhile pyIsSpace).reverse)

/-- Whether the first list is a prefix of the second (Boolean). -/
def isPrefixL : List Char → List Char → Bool
  | [], _ => true
  | _ :: _, [] => false
  | a :: as, b :: bs => a == b && isPrefixL as bs

/-- Whether `pat` occurs as a contiguous sublist of `s` (Python `pat in s`). -/
def hasSubL (pat : List Char) : List Char → Bool
  | [] => isPrefixL pat []
  | c :: rest => isPrefixL pat (c :: rest) || hasSubL pat rest

/-- Python `pat in s` for strings. -/
def hasSubstr (s pat : String) : Bool :=
  hasSubL pat.data s.data

/-- Worker for Python `str.split(sep)` with non-empty separator
`sc :: sep`; `acc` holds the current segment reversed.  The recursion is
driven by a fuel counter so that the definition is structural (and hence
evaluates inside the kernel); each step consumes at least one scanned
character, so the fuel supplied by `pySplit` (the length of the scanned
list) never runs out, and the out-of-fuel branch is chosen to coincide
with the no-further-separator result it would otherwise compute. -/
def splitLAux (sc : Char) (sep : List Char) : Nat → List Char → List Char → List (List Char)
  | 0, s, acc => [acc.reverse ++ s]
  | _ + 1, [], acc => [acc.reverse]
  | fuel + 1, c :: rest, acc =>
    if isPrefixL (sc :: sep) (c :: rest) then
      acc.reverse :: splitLAux sc sep fuel (rest.drop sep.length) []
    else
      splitLAux sc sep fuel rest (c :: acc)

/-- Python `s.split(sep)` for a non-empty separator (Python raises on an
empty separator; no call site uses one, the `[s]` branch is dead). -/
def pySplit (s sep : String) : List String :=
  match sep.data with
  | [] => [s]
  | c :: cs => (splitLAux c cs s.data.length s.data []).map String.mk

/-! ## Fleet store data model (`utils.py`)

A device record in `config/minions.yaml` is keyed by the minion's IP.
Records created by `write_minions` always carry the keys
`status`, `last_accessed`, `last_update` (possibly null) and a `cameras`
dict with exactly the two sub-records `camera1`, `camera2`; each camera
sub-record may carry `status`, `last_captured` and `camera_pos`.
The YAML document is modelled as an association list in document order:
Python dict insertion keeps the key position on overwrite and appends
fresh keys at the end. -/

/-- Camera sub-record (`cameras.cameraN` in `minions.yaml`). -/
structure Camera where
  status : Option String := none
  last_captured : Option String := none
  camera_pos : Option String := none
deriving DecidableEq, Repr

/-- Device record (one entry of `minions.yaml`). -/
structure Minion where
  status : Option String := none
  last_accessed : Option String := none
  last_update : Option String := none
  camera1 : Camera := {}
  camera2 : Camera := {}
deriving DecidableEq, Repr

/-- The fleet store: `minions.yaml` as an ordered key/value document. -/
abbrev Store := List (String × Minion)

/-- Python `data[ip] if ip in data else` absent: first (unique) match. -/
def lookupM : Store → String → Option Minion
  | [], _ => none
  | (k, v) :: rest, ip => if k = ip then some v else lookupM rest ip

/-- Python `data[ip] = m`: overwrite in place, or append a fresh key. -/
def setM : Store → String → Minion → Store
  | [], ip, m => [(ip, m)]
  | (k, v) :: rest, ip, m =>
    if k = ip then (ip, m) :: rest else (k, v) :: setM rest ip m

/-- Python truthiness of an optional string argument
(`if cam1_status:` is false for both `None` and `""`). -/
def truthy : Option String → Bool
  | none => false
  | some s => !s.data.isEmpty

/-- The record produced by one `write_minions` call for its own key
(`utils.py`, lines 127-152).  Python updates the record in stages that
touch pairwise disjoint keys (`status`/`last_accessed`/`last_update`,
then `cameras.camera1.{status,last_captured}` under `if cam1_status:`,
then `cameras.camera2.{status,last_captured}`, then each `camera_pos`),
so the merged record is written here field by field. -/
def updateMinionRecord (old : Option Minion) (status : String)
    (cam1_status cam2_status : Option String) (updated : Bool)
    (cam1_position cam2_position : Option String)
    (now today : String) : Minion :=
  let m0 := old.getD {}
  { status := some status
    last_accessed := some now
    last_update := if updated then some today else m0.last_update
    camera1 :=
      { status := if truthy cam1_status then cam1_status else m0.camera1.status
        last_captured := if truthy cam1_status then some now else m0.camera1.last_captured
        camera_pos := if truthy cam1_position then cam1_position else m0.camera1.camera_pos }
    camera2 :=
      { status := if truthy cam2_status then cam2_status else m0.camera2.status
        last_captured := if truthy cam2_status then some now else m0.camera2.last_captured
        camera_pos := if truthy cam2_position then cam2_position else m0.camera2.camera_pos } }

/-- `write_minions` (`utils.py`, lines 114-154): read-merge-write of the
whole document.  `now` stands for `datetime.now().isoformat()`, `today`
for `datetime.now().date().isoformat()`; persistence always succeeds in
the model (`write_yaml` I/O failure is out of scope). -/
def write_minions (store : Store) (minion_ip status : String)
    (cam1_status cam2_status : Option String) (updated : Bool)
    (cam1_position cam2_position : Option String)
    (now today : String) : Store :=
  setM store minion_ip
    (updateMinionRecord (lookupM store minion_ip) status
      cam1_status cam2_status updated cam1_position cam2_position now today)

/-- `has_run_today` (`networking.py`, lines 69-86): `get_minions(ip)`
returns `{}` for an unknown IP, whose `.get("last_update", "")` is `""`;
a record whose `last_update` is null compares unequal to `today`. -/
def has_run_today (store : Store) (minion_ip : String) (today : String) : Bool :=
  match lookupM store minion_ip with
  | none => decide ("" = today)
  | some m =>
    match m.last_update with
    | none => false
    | some d => decide (d = today)

/-! ## Imaging workflow (`imaging.py`) -/

/-- Result of one remote command (`_run_ssh_command` in `utils.py`):
transport-level success flag and captured stdout. -/
structure SSHResult where
  success : Bool
  output : String
deriving DecidableEq, Repr

/-- The per-line parse in `image_minion` (lines 54-56): element 1 of
`line.split("Failed cameras:")`, stripped, split on `;`, each segment
stripped.  The call site guards the line with `"Failed cameras:" in
line`, so index 1 always exists; `getD` returns `""` on the dead path. -/
def parseFailedLine (line : String) : List String :=
  let failed_info := pyStrip ((pySplit line "Failed cameras:").getD 1 "")
  (pySplit failed_info ";").map pyStrip

/-- The scan over `output_lines` (lines 49-56): `failed_cameras` starts
as `[]` and is reassigned by every line containing the marker, so the
last such line wins. -/
def scanFailedCameras (output_lines : List String) : List String :=
  output_lines.foldl
    (fun failed_cameras line =>
      if hasSubstr line "Failed cameras:" then parseFailedLine line
      else failed_cameras)
    []

/-- Failed-camera list of a capture output:
`output_lines = result.output.strip().split('\n')` then the scan. -/
def parse_failed_cameras (output : String) : List String :=
  scanFailedCameras (pySplit (pyStrip output) "\n")

/-- Observables of one `image_minion` call: the returned Boolean, the
store after all commits, the number of remote capture commands issued,
and the statuses written (in order). -/
structure ImagingResult where
  ret : Bool
  store : Store
  remoteCalls : Nat
  writes : List String
deriving DecidableEq, Repr

/-- `image_minion` (`imaging.py`, lines 5-72).  `capture` is the result
of the single `execute_ssh_command` capture invocation (transport
oracle); it is consulted only when the call is actually made.
`get_minions(ip)` yields `{}` for an unknown IP, which is falsy, so that
path returns `False` without writing; a missing `camera_pos` on either
camera raises `KeyError`, caught as the position-needed path. -/
def image_minion (store : Store) (minion_ip : String) (capture : SSHResult)
    (now today : String) : ImagingResult :=
  match lookupM store minion_ip with
  | none => { ret := false, store := store, remoteCalls := 0, writes := [] }
  | some minion_config =>
    match minion_config.camera1.camera_pos, minion_config.camera2.camera_pos with
    | some _, some _ =>
      let store1 := write_minions store minion_ip "imaging" none none false none none now today
      if !capture.success then
        { ret := false
          store := write_minions store1 minion_ip "error" none none true none none now today
          remoteCalls := 1, writes := ["imaging", "error"] }
      else if hasSubstr capture.output "Partial success" then
        let failed_cameras := parse_failed_cameras capture.output
        let st := "partial - " ++ String.intercalate ", " failed_cameras
        { ret := false
          store := write_minions store1 minion_ip st none none true none none now today
          remoteCalls := 1, writes := ["imaging", st] }
      else if hasSubstr capture.output "Error: No images" then
        { ret := false
          store := write_minions store1 minion_ip "error" none none true none none now today
          remoteCalls := 1, writes := ["imaging", "error"] }
      else
        { ret := true
          store := write_minions store1 minion_ip "ready" none none true none none now today
          remoteCalls := 1, writes := ["imaging", "ready"] }
    | _, _ =>
      { ret := false
        store := write_minions store minion_ip "position needed" none none true none none now today
        remoteCalls := 0, writes := ["position needed"] }

/-- Status of `ip` in the store committed by an `image_minion` call. -/
def imagedStatus (store : Store) (minion_ip : String) (capture : SSHResult)
    (now today : String) : Option String :=
  (lookupM (image_minion store minion_ip capture now today).store minion_ip).bind Minion.status

/-! ## Update workflow (`networking.py`) -/

/-- Observables of one `update_minion` call: the returned Boolean, the
store after the status commit, and the indices of the remote operations
actually performed (in order).  The nine remote operations of the three
stages are numbered 0-8: 0-4 config, 5-6 core, 7-8 services. -/
structure UpdateResult where
  ret : Bool
  store : Store
  performed : List Nat
deriving DecidableEq, Repr

/-- `update_minion` (`networking.py`, lines 88-145).  `exec i` is the
transport success of remote operation `i`.  Each stage builds a Python
list literal `[op, op, ...]` before testing `all(...)`, so every
operation of a stage runs even when an earlier one already failed;
stages themselves are sequenced fail-fast. -/
def update_minion (store : Store) (minion_ip : String) (exec : Nat → Bool)
    (now today : String) : UpdateResult :=
  let stage_config := [exec 0, exec 1, exec 2, exec 3, exec 4]
  if !stage_config.all (fun b => b) then
    { ret := false
      store := write_minions store minion_ip "failed_config" none none false none none now today
      performed := [0, 1, 2, 3, 4] }
  else
    let stage_core := [exec 5, exec 6]
    if !stage_core.all (fun b => b) then
      { ret := false
        store := write_minions store minion_ip "failed_core" none none false none none now today
        performed := [0, 1, 2, 3, 4, 5, 6] }
    else
      let stage_services := [exec 7, exec 8]
      if !stage_services.all (fun b => b) then
        { ret := false
          store := write_minions store minion_ip "failed_services" none none false none none now today
          performed := [0, 1, 2, 3, 4, 5, 6, 7, 8] }
      else
        { ret := true
          store := write_minions store minion_ip "online" none none true none none now today
          performed := [0, 1, 2, 3, 4, 5, 6, 7, 8] }

/-- The run counters of `update_all_minions`. -/
structure FleetStats where
  total : Nat
  updated : Nat
  skipped : Nat
  failed : Nat
deriving DecidableEq, Repr

/-- Observables of one `update_all_minions` pass: final store, counters,
and the IPs on which `update_minion` was invoked (i.e. remote contact
was made), in order. -/
structure FleetResult where
  store : Store
  stats : FleetStats
  contacted : List String
deriving DecidableEq, Repr

/-- `update_all_minions` (`networking.py`, lines 147-186), restricted to
its per-IP loop: `ips` is the discovered lease list, `exec ip` the
transport oracle for that minion's nine operations.  A minion is
contacted only when `not has_run_today(ip) or force_update`. -/
def update_all_minions (store : Store) (ips : List String)
    (exec : String → Nat → Bool) (force_update : Bool)
    (now today : String) : FleetResult :=
  match ips with
  | [] => { store := store, stats := ⟨0, 0, 0, 0⟩, contacted := [] }
  | ip :: rest =>
    if !has_run_today store ip today || force_update then
      let r := update_minion store ip (exec ip) now today
      let f := update_all_minions r.store rest exec force_update now today
      { store := f.store
        stats :=
          { total := f.stats.total + 1
            updated := f.stats.updated + (if r.ret then 1 else 0)
            skipped := f.stats.skipped
            failed := f.stats.failed + (if r.ret then 0 else 1) }
        contacted := ip :: f.contacted }
    else
      let f := update_all_minions store rest exec force_update now today
      { store := f.store
        stats :=
          { total := f.stats.total + 1
            updated := f.stats.updated
            skipped := f.stats.skipped + 1
            failed := f.stats.failed }
        contacted := f.contacted }

/-! ## Positioning workflow (`positioning.py`) -/

/-- Observables of one iteration of `monitor_position`'s outer loop:
the minion that received coordinates (if any), the store afterwards, the
minions polled for a request file (in order), and the minions whose
request marker was removed. -/
structure PosResult where
  assigned : Option String
  store : Store
  polled : List String
  cleared : List String
deriving DecidableEq, Repr

/-- Python `f"X{x}Y{y}"`. -/
def posStr (x y : Int) : String :=
  "X" ++ toString x ++ "Y" ++ toString y

/-- The `for minion_ip in unpositioned:` loop of `monitor_position`
(lines 15-27): poll each pending minion; on the first positive signal
commit both camera positions with status `online` (note: `updated` is
left at its default `False`), clear the request file on every minion of
`snapshot`, and return.  Store writes succeed in the model, so the
`if write_minions(...)` guard is taken. -/
def monitor_go (snapshot : List String) (pending : List String)
    (polledRev : List String) (store : Store) (signals : String → Bool)
    (x y : Int) (now today : String) : PosResult :=
  match pending with
  | [] => { assigned := none, store := store, polled := polledRev.reverse, cleared := [] }
  | minion_ip :: rest =>
    if signals minion_ip then
      { assigned := some minion_ip
        store := write_minions store minion_ip "online" none none false
          (some (posStr x y)) (some (posStr x (y + 1))) now today
        polled := (minion_ip :: polledRev).reverse
        cleared := snapshot }
    else
      monitor_go snapshot rest (minion_ip :: polledRev) store signals x y now today

/-- One iteration of `monitor_position` (`positioning.py`, lines 9-27):
`unpositioned = set(minions.keys())` is the key set of the whole store
snapshot (the source carries `TODO capture positioned minions`: already
positioned devices are not excluded).  Python set iteration order is
arbitrary (hash-dependent), so the model takes the iteration order as
the parameter `order`; the theorems constrain `order` to be an
enumeration (permutation) of the snapshot's keys and hold for every
such order.  `signals ip` is whether `receive_file` finds
`requestLocation.file` on that minion. -/
def monitor_position_pass (store : Store) (order : List String) (signals : String → Bool)
    (x y : Int) (now today : String) : PosResult :=
  monitor_go order order [] store signals x y now today

/-! ## Store lemmas -/

theorem lookupM_setM_self (store : Store) (ip : String) (m : Minion) :
    lookupM (setM store ip m) ip = some m := by
  induction store with
  | nil => simp [setM, lookupM]
  | cons kv rest ih =>
    obtain ⟨k, v⟩ := kv
    by_cases h : k = ip
    · simp [setM, h, lookupM]
    · simp [setM, h, lookupM, ih]

theorem lookupM_setM_ne (store : Store) (ip ip' : String) (m : Minion)
    (h : ip' ≠ ip) : lookupM (setM store ip m) ip' = lookupM store ip' := by
  induction store with
  | nil => simp [setM, lookupM, h, Ne.symm h]
  | cons kv rest ih =>
    obtain ⟨k, v⟩ := kv
    by_cases hk : k = ip
    · subst hk
      simp [setM, lookupM, h, Ne.symm h]
    · simp [setM, hk, lookupM, ih]

theorem lookupM_write_self (store : Store) (ip status : String)
    (c1 c2 : Option String) (u : Bool) (p1 p2 : Option String) (now today : String) :
    lookupM (write_minions store ip status c1 c2 u p1 p2 now today) ip
      = some (updateMinionRecord (lookupM store ip) status c1 c2 u p1 p2 now today) := by
  simp [write_minions, lookupM_setM_self]

theorem lookupM_write_ne (store : Store) (ip ip' status : String)
    (c1 c2 : Option String) (u : Bool) (p1 p2 : Option String) (now today : String)
    (h : ip' ≠ ip) :
    lookupM (write_minions store ip status c1 c2 u p1 p2 now today) ip'
      = lookupM store ip' := by
  simp [write_minions, lookupM_setM_ne _ _ _ _ h]

theorem updateMinionRecord_status (old : Option Minion) (status : String)
    (c1 c2 : Option String) (u : Bool) (p1 p2 : Option String) (now today : String) :
    (updateMinionRecord old status c1 c2 u p1 p2 now today).status = some status := rfl

theorem updateMinionRecord_last_update (old : Option Minion) (status : String)
    (c1 c2 : Option String) (u : Bool) (p1 p2 : Option String) (now today : String) :
    (updateMinionRecord old status c1 c2 u p1 p2 now today).last_update
      = if u then some today else (old.getD {}).last_update := rfl

/-- Unconfirmed writes (`updated=False`) never change any record's
`last_update`, neither the written key's nor anyone else's. -/
theorem write_unconfirmed_last_update (store : Store) (ip ip' status : String)
    (c1 c2 : Option String) (p1 p2 : Option String) (now today : String) :
    (lookupM (write_minions store ip status c1 c2 false p1 p2 now today) ip').bind Minion.last_update
      = (lookupM store ip').bind Minion.last_update := by
  by_cases h : ip' = ip
  · subst h
    rw [lookupM_write_self]
    cases hm : lookupM store ip' <;>
      simp [hm, updateMinionRecord_last_update]
  · rw [lookupM_write_ne _ _ _ _ _ _ _ _ _ _ _ h]

/-! ## Fixtures for witnesses and counterexamples -/

/-- A device record with both camera positions assigned. -/
def mPositioned : Minion :=
  { status := some "online"
    last_accessed := none
    last_update := none
    camera1 := { status := none, last_captured := none, camera_pos := some "X1Y1" }
    camera2 := { status := none, last_captured := none, camera_pos := some "X1Y2" } }

/-- One-device store whose record has both camera positions. -/
def storePositioned : Store := [("10.0.0.5", mPositioned)]

/-- The §8 end-to-end capture output: partial success, camera 2 failed. -/
def resPartial : SSHResult :=
  { success := true
    output := "Partial success: Images captured from Camera 1\nFailed cameras: 2" }

/-! ## Claim theorems -/

/-- C1: for an imaging invocation on a device with both camera positions
set, the result classification and commit follow the fixed precedence:
transport failure commits `error` and returns false; otherwise an output
containing `Partial success` (even together with `Error: No images`)
commits `partial - <joined failed-camera list>` and returns false;
otherwise `Error: No images` commits `error` and returns false;
otherwise `ready` is committed and true is returned — true exactly in
the full-success case. -/
theorem c1_result_classification (store : Store) (ip : String) (res : SSHResult)
    (now today : String) (m : Minion)
    (hm : lookupM store ip = some m)
    (h1 : m.camera1.camera_pos.isSome = true)
    (h2 : m.camera2.camera_pos.isSome = true) :
    (res.success = false →
        imagedStatus store ip res now today = some "error"
          ∧ (image_minion store ip res now today).ret = false)
      ∧ (res.success = true → hasSubstr res.output "Partial success" = true →
        imagedStatus store ip res now today
            = some ("partial - " ++ String.intercalate ", " (parse_failed_cameras res.output))
          ∧ (image_minion store ip res now today).ret = false)
      ∧ (res.success = true → hasSubstr res.output "Partial success" = false →
            hasSubstr res.output "Error: No images" = true →
        imagedStatus store ip res now today = some "error"
          ∧ (image_minion store ip res now today).ret = false)
      ∧ (res.success = true → hasSubstr res.output "Partial success" = false →
            hasSubstr res.output "Error: No images" = false →
        imagedStatus store ip res now today = some "ready"
          ∧ (image_minion store ip res now today).ret = true)
      ∧ ((image_minion store ip res now today).ret = true ↔
          res.success = true ∧ hasSubstr res.output "Partial success" = false
            ∧ hasSubstr res.output "Error: No images" = false) := by
  obtain ⟨p1, hp1⟩ := Option.isSome_iff_exists.mp h1
  obtain ⟨p2, hp2⟩ := Option.isSome_iff_exists.mp h2
  cases hs : res.success with
  | false =>
    have he : image_minion store ip res now today =
        { ret := false
          store := write_minions (write_minions store ip "imaging" none none false none none now today)
            ip "error" none none true none none now today
          remoteCalls := 1, writes := ["imaging", "error"] } := by
      simp [image_minion, hm, hp1, hp2, hs]
    refine ⟨fun _ => ?_, fun h => by simp at h,
      fun h => by simp at h,
      fun h => by simp at h, ?_⟩
    · simp [imagedStatus, he, lookupM_write_self, updateMinionRecord_status]
    · simp [he, hs]
  | true =>
    cases hps : hasSubstr res.output "Partial success" with
    | true =>
      have he : image_minion store ip res now today =
          { ret := false
            store := write_minions (write_minions store ip "imaging" none none false none none now today)
              ip ("partial - " ++ String.intercalate ", " (parse_failed_cameras res.output))
              none none true none none now today
            remoteCalls := 1
            writes := ["imaging",
              "partial - " ++ String.intercalate ", " (parse_failed_cameras res.output)] } := by
        simp [image_minion, hm, hp1, hp2, hs, hps]
      refine ⟨fun h => by simp at h, fun _ _ => ?_,
        fun _ h => by simp at h,
        fun _ h => by simp at h, ?_⟩
      · simp [imagedStatus, he, lookupM_write_self, updateMinionRecord_status]
      · simp [he, hps]
    | false =>
      cases hpe : hasSubstr res.output "Error: No images" with
      | true =>
        have he : image_minion store ip res now today =
            { ret := false
              store := write_minions (write_minions store ip "imaging" none none false none none now today)
                ip "error" none none true none none now today
              remoteCalls := 1, writes := ["imaging", "error"] } := by
          simp [image_minion, hm, hp1, hp2, hs, hps, hpe]
        refine ⟨fun h => by simp at h,
          fun _ h => by simp at h, fun _ _ _ => ?_,
          fun _ _ h => by simp at h, ?_⟩
        · simp [imagedStatus, he, lookupM_write_self, updateMinionRecord_status]
        · simp [he, hpe]
      | false =>
        have he : image_minion store ip res now today =
            { ret := true
              store := write_minions (write_minions store ip "imaging" none none false none none now today)
                ip "ready" none none true none none now today
              remoteCalls := 1, writes := ["imaging", "ready"] } := by
          simp [image_minion, hm, hp1, hp2, hs, hps, hpe]
        refine ⟨fun h => by simp at h,
          fun _ h => by simp at h,
          fun _ _ h => by simp at h, fun _ _ _ => ?_, ?_⟩
        · simp [imagedStatus, he, lookupM_write_self, updateMinionRecord_status]
        · simp [he, hs, hps, hpe]

/-- C1 witness: the §8 end-to-end scenario — transport success with
stdout `"Partial success: Images captured from Camera 1\nFailed
cameras: 2"` commits status `partial - 2` and returns false. -/
theorem c1_result_classification_witness :
    imagedStatus storePositioned "10.0.0.5" resPartial "T" "D" = some "partial - 2"
      ∧ (image_minion storePositioned "10.0.0.5" resPartial "T" "D").ret = false := by
  have h := (c1_result_classification storePositioned "10.0.0.5" resPartial "T" "D"
    mPositioned (by decide) (by decide) (by decide)).2.1 (by decide) (by decide)
  refine ⟨?_, h.2⟩
  rw [h.1]
  decide

/-- A device record whose camera2 has no assigned position. -/
def mCam2Unset : Minion :=
  { status := some "online"
    last_accessed := none
    last_update := none
    camera1 := { status := none, last_captured := none, camera_pos := some "X1Y1" }
    camera2 := {} }

/-- One-device store whose record lacks the camera2 position. -/
def storeCam2Unset : Store := [("10.0.0.6", mCam2Unset)]

/-- A device record with neither camera position assigned. -/
def mBare : Minion := {}

/-- One-device store whose record has no camera positions. -/
def storeBare : Store := [("10.0.0.9", mBare)]

/-- C7: an imaging invocation on a device record in which camera1 or
camera2 lacks a stored position performs no remote capture call, commits
status `position needed`, and returns false. -/
theorem c7_needs_position (store : Store) (ip : String) (res : SSHResult)
    (now today : String) (m : Minion) (hm : lookupM store ip = some m)
    (hpos : m.camera1.camera_pos = none ∨ m.camera2.camera_pos = none) :
    (image_minion store ip res now today).remoteCalls = 0
      ∧ (image_minion store ip res now today).ret = false
      ∧ imagedStatus store ip res now today = some "position needed" := by
  have he : image_minion store ip res now today =
      { ret := false
        store := write_minions store ip "position needed" none none true none none now today
        remoteCalls := 0, writes := ["position needed"] } := by
    rcases hpos with h | h
    · cases h2 : m.camera2.camera_pos <;> simp [image_minion, hm, h, h2]
    · cases h1 : m.camera1.camera_pos <;> simp [image_minion, hm, h, h1]
  simp [he, imagedStatus, lookupM_write_self, updateMinionRecord_status]

/-- C7 witness: on a concrete record with camera2 position unset, no
remote call is made, `position needed` is committed, false returned. -/
theorem c7_needs_position_witness :
    (image_minion storeCam2Unset "10.0.0.6" ⟨true, "ok"⟩ "T" "D").remoteCalls = 0
      ∧ (image_minion storeCam2Unset "10.0.0.6" ⟨true, "ok"⟩ "T" "D").ret = false
      ∧ imagedStatus storeCam2Unset "10.0.0.6" ⟨true, "ok"⟩ "T" "D" = some "position needed" :=
  c7_needs_position storeCam2Unset "10.0.0.6" ⟨true, "ok"⟩ "T" "D" mCam2Unset
    (by decide) (by decide)

/-- C2 counterexample: the claim says a write representing a failed
state such as `position needed` never changes `last_update`, but
`image_minion` commits `position needed` with `updated=True`
(`imaging.py` line 28): on a record whose `last_update` was null it
becomes the current date. -/
theorem c2_last_update_cex :
    (lookupM storeBare "10.0.0.9").bind Minion.last_update = none
      ∧ (image_minion storeBare "10.0.0.9" ⟨true, ""⟩ "2025-01-02T10:00:00" "2025-01-02").writes
          = ["position needed"]
      ∧ (lookupM (image_minion storeBare "10.0.0.9" ⟨true, ""⟩ "2025-01-02T10:00:00" "2025-01-02").store
          "10.0.0.9").bind Minion.last_update = some "2025-01-02" := by
  decide

/-- C2 (amended): `last_update` only advances on a write with the
confirm flag set, and writes without the flag (the transient `imaging`
write and the update workflow's failed-stage commits) never change it;
however the imaging workflow sets the confirm flag on all four of its
terminal commits including the failed ones, so the `position needed`
commit, the transport-failure `error` commit, the `partial - ...`
commit, and the no-images `error` commit each advance `last_update` to
the current date. -/
theorem c2_last_update_amended :
    (∀ (store : Store) (ip ip' status : String) (c1 c2 p1 p2 : Option String) (now today : String),
        (lookupM (write_minions store ip status c1 c2 false p1 p2 now today) ip').bind Minion.last_update
          = (lookupM store ip').bind Minion.last_update)
      ∧ (∀ (store : Store) (ip : String) (exec : Nat → Bool) (now today : String),
          (update_minion store ip exec now today).ret = false →
          (lookupM (update_minion store ip exec now today).store ip).bind Minion.last_update
            = (lookupM store ip).bind Minion.last_update)
      ∧ (∀ (store : Store) (ip : String) (res : SSHResult) (now today : String) (m : Minion),
          lookupM store ip = some m →
          (m.camera1.camera_pos = none ∨ m.camera2.camera_pos = none) →
          imagedStatus store ip res now today = some "position needed"
            ∧ (lookupM (image_minion store ip res now today).store ip).bind Minion.last_update
              = some today)
      ∧ (∀ (store : Store) (ip : String) (res : SSHResult) (now today : String) (m : Minion),
          lookupM store ip = some m →
          m.camera1.camera_pos.isSome = true → m.camera2.camera_pos.isSome = true →
          res.success = false →
          imagedStatus store ip res now today = some "error"
            ∧ (lookupM (image_minion store ip res now today).store ip).bind Minion.last_update
              = some today)
      ∧ (∀ (store : Store) (ip : String) (res : SSHResult) (now today : String) (m : Minion),
          lookupM store ip = some m →
          m.camera1.camera_pos.isSome = true → m.camera2.camera_pos.isSome = true →
          res.success = true → hasSubstr res.output "Partial success" = true →
          imagedStatus store ip res now today
              = some ("partial - " ++ String.intercalate ", " (parse_failed_cameras res.output))
            ∧ (lookupM (image_minion store ip res now today).store ip).bind Minion.last_update
              = some today)
      ∧ (∀ (store : Store) (ip : String) (res : SSHResult) (now today : String) (m : Minion),
          lookupM store ip = some m →
          m.camera1.camera_pos.isSome = true → m.camera2.camera_pos.isSome = true →
          res.success = true → hasSubstr res.output "Partial success" = false →
          hasSubstr res.output "Error: No images" = true →
          imagedStatus store ip res now today = some "error"
            ∧ (lookupM (image_minion store ip res now today).store ip).bind Minion.last_update
              = some today) := by
  refine ⟨?_, ?_, ?_, ?_, ?_, ?_⟩
  · intro store ip ip' status c1 c2 p1 p2 now today
    exact write_unconfirmed_last_update store ip ip' status c1 c2 p1 p2 now today
  · intro store ip exec now today hret
    cases hc1 : [exec 0, exec 1, exec 2, exec 3, exec 4].all (fun b => b) with
    | false => simp [update_minion, hc1, write_unconfirmed_last_update]
    | true =>
      cases hc2 : [exec 5, exec 6].all (fun b => b) with
      | false => simp [update_minion, hc1, hc2, write_unconfirmed_last_update]
      | true =>
        cases hc3 : [exec 7, exec 8].all (fun b => b) with
        | false => simp [update_minion, hc1, hc2, hc3, write_unconfirmed_last_update]
        | true => simp [update_minion, hc1, hc2, hc3] at hret
  · intro store ip res now today m hm hpos
    have he : (image_minion store ip res now today).store
        = write_minions store ip "position needed" none none true none none now today := by
      rcases hpos with h | h
      · cases h2 : m.camera2.camera_pos <;> simp [image_minion, hm, h, h2]
      · cases h1 : m.camera1.camera_pos <;> simp [image_minion, hm, h, h1]
    simp [imagedStatus, he, lookupM_write_self, updateMinionRecord_status,
      updateMinionRecord_last_update]
  · intro store ip res now today m hm h1 h2 hs
    obtain ⟨p1, hp1⟩ := Option.isSome_iff_exists.mp h1
    obtain ⟨p2, hp2⟩ := Option.isSome_iff_exists.mp h2
    have he : (image_minion store ip res now today).store
        = write_minions (write_minions store ip "imaging" none none false none none now today)
          ip "error" none none true none none now today := by
      simp [image_minion, hm, hp1, hp2, hs]
    simp [imagedStatus, he, lookupM_write_self, updateMinionRecord_status,
      updateMinionRecord_last_update]
  · intro store ip res now today m hm h1 h2 hs hps
    obtain ⟨p1, hp1⟩ := Option.isSome_iff_exists.mp h1
    obtain ⟨p2, hp2⟩ := Option.isSome_iff_exists.mp h2
    have he : (image_minion store ip res now today).store
        = write_minions (write_minions store ip "imaging" none none false none none now today)
          ip ("partial - " ++ String.intercalate ", " (parse_failed_cameras res.output))
          none none true none none now today := by
      simp [image_minion, hm, hp1, hp2, hs, hps]
    simp [imagedStatus, he, lookupM_write_self, updateMinionRecord_status,
      updateMinionRecord_last_update]
  · intro store ip res now today m hm h1 h2 hs hps hpe
    obtain ⟨p1, hp1⟩ := Option.isSome_iff_exists.mp h1
    obtain ⟨p2, hp2⟩ := Option.isSome_iff_exists.mp h2
    have he : (image_minion store ip res now today).store
        = write_minions (write_minions store ip "imaging" none none false none none now today)
          ip "error" none none true none none now today := by
      simp [image_minion, hm, hp1, hp2, hs, hps, hpe]
    simp [imagedStatus, he, lookupM_write_self, updateMinionRecord_status,
      updateMinionRecord_last_update]

/-- C2 witness: an unconfirmed `imaging` write leaves `last_update`
null; the confirmed `position needed`, `partial - ...` and
transport-failure `error` commits each set it to the current date. -/
theorem c2_last_update_amended_witness :
    (lookupM (write_minions [] "10.0.0.1" "imaging" none none false none none "T" "D")
        "10.0.0.1").bind Minion.last_update = none
      ∧ (lookupM (image_minion storeBare "10.0.0.9" ⟨true, ""⟩ "T" "2025-01-02").store
          "10.0.0.9").bind Minion.last_update = some "2025-01-02"
      ∧ (lookupM (image_minion storePositioned "10.0.0.5" resPartial "T" "2025-01-02").store
          "10.0.0.5").bind Minion.last_update = some "2025-01-02"
      ∧ (lookupM (image_minion storePositioned "10.0.0.5" ⟨false, ""⟩ "T" "2025-01-02").store
          "10.0.0.5").bind Minion.last_update = some "2025-01-02" := by
  refine ⟨?_, ?_, ?_, ?_⟩
  · have h := c2_last_update_amended.1 [] "10.0.0.1" "10.0.0.1" "imaging" none none none none "T" "D"
    rw [h]
    decide
  · exact (c2_last_update_amended.2.2.1 storeBare "10.0.0.9" ⟨true, ""⟩ "T" "2025-01-02" mBare
      (by decide) (by decide)).2
  · exact (c2_last_update_amended.2.2.2.2.1 storePositioned "10.0.0.5" resPartial "T" "2025-01-02"
      mPositioned (by decide) (by decide) (by decide) (by decide) (by decide)).2
  · exact (c2_last_update_amended.2.2.2.1 storePositioned "10.0.0.5" ⟨false, ""⟩ "T" "2025-01-02"
      mPositioned (by decide) (by decide) (by decide) (by decide)).2

/-- C9 counterexample: the claim includes the path where no record
exists for the address, but there `image_minion` returns false without
performing any status write (`imaging.py` lines 17-20): on the empty
store nothing is written and the store is unchanged. -/
theorem c9_terminal_commit_cex :
    (image_minion [] "10.0.0.5" ⟨true, ""⟩ "T" "D").writes = []
      ∧ (image_minion [] "10.0.0.5" ⟨true, ""⟩ "T" "D").store = []
      ∧ (image_minion [] "10.0.0.5" ⟨true, ""⟩ "T" "D").ret = false := by
  decide

/-- C9 (amended): every return path of the per-device imaging operation
on an address with an existing record performs a status write before
returning (so device health is readable from the store); the one
exception is the missing-record path, which returns false without any
store write, leaving the store unchanged. -/
theorem c9_terminal_commit_amended :
    (∀ (store : Store) (ip : String) (res : SSHResult) (now today : String),
        (lookupM store ip).isSome = true →
        (image_minion store ip res now today).writes ≠ []
          ∧ (lookupM (image_minion store ip res now today).store ip).isSome = true)
      ∧ (∀ (store : Store) (ip : String) (res : SSHResult) (now today : String),
        lookupM store ip = none →
        (image_minion store ip res now today).writes = []
          ∧ (image_minion store ip res now today).store = store
          ∧ (image_minion store ip res now today).ret = false) := by
  refine ⟨?_, ?_⟩
  · intro store ip res now today h
    obtain ⟨m, hm⟩ := Option.isSome_iff_exists.mp h
    rcases hp1 : m.camera1.camera_pos with _ | p1 <;>
      rcases hp2 : m.camera2.camera_pos with _ | p2 <;>
      simp only [image_minion, hm, hp1, hp2] <;>
      (try split_ifs) <;>
      simp [lookupM_write_self]
  · intro store ip res now today h
    simp [image_minion, h]

/-- C9 witness: with an existing record a write happens; with no record
for the address, nothing is written. -/
theorem c9_terminal_commit_amended_witness :
    (image_minion storePositioned "10.0.0.5" resPartial "T" "D").writes ≠ []
      ∧ (image_minion [] "10.0.0.8" resPartial "T" "D").writes = [] :=
  ⟨(c9_terminal_commit_amended.1 storePositioned "10.0.0.5" resPartial "T" "D" (by decide)).1,
    (c9_terminal_commit_amended.2 [] "10.0.0.8" resPartial "T" "D" (by decide)).1⟩

/-- `truthy` arguments are neither absent nor the empty string. -/
theorem truthy_ne_empty (o : Option String) (h : truthy o = true) :
    o ≠ none ∧ o ≠ some "" := by
  cases o with
  | none => simp [truthy] at h
  | some s =>
    refine ⟨by simp, ?_⟩
    simp only [truthy, Bool.not_eq_true'] at h
    intro he
    rw [Option.some.injEq] at he
    subst he
    simp at h

theorem truthy_empty_str : truthy (some "") = false := by decide

theorem truthy_none : truthy none = false := rfl

/-- A fully populated device record. -/
def mRich : Minion :=
  { status := some "ready"
    last_accessed := some "2025-01-01T08:00:00"
    last_update := some "2025-01-01"
    camera1 := { status := some "ready", last_captured := some "2025-01-01T08:00:00",
                 camera_pos := some "X3Y4" }
    camera2 := { status := some "failed", last_captured := some "2025-01-01T08:05:00",
                 camera_pos := some "X3Y5" } }

/-- One-device store with the fully populated record. -/
def storeRich : Store := [("10.0.0.3", mRich)]

/-- C8: a store write supplying only the device status and `cam1_status`
leaves camera2's whole sub-record, both `camera_pos` fields and
`last_update` unchanged, while always refreshing `last_accessed`; a
write to an absent address creates a record with exactly the two empty
camera sub-records (camera1 then updated by the supplied status). -/
theorem c8_store_merge (store : Store) (ip s c1 : String) (now today : String) :
    (∀ m : Minion, lookupM store ip = some m → truthy (some c1) = true →
        lookupM (write_minions store ip s (some c1) none false none none now today) ip
          = some { status := some s
                   last_accessed := some now
                   last_update := m.last_update
                   camera1 := { status := some c1, last_captured := some now
                                camera_pos := m.camera1.camera_pos }
                   camera2 := m.camera2 })
      ∧ (lookupM store ip = none → truthy (some c1) = true →
        lookupM (write_minions store ip s (some c1) none false none none now today) ip
          = some { status := some s
                   last_accessed := some now
                   last_update := none
                   camera1 := { status := some c1, last_captured := some now, camera_pos := none }
                   camera2 := {} }) := by
  refine ⟨?_, ?_⟩
  · intro m hm ht
    rw [lookupM_write_self, hm]
    simp [updateMinionRecord, ht, truthy_none]
  · intro hm ht
    rw [lookupM_write_self, hm]
    simp [updateMinionRecord, ht, truthy_none]

/-- C8 witness: concrete merge on a fully populated record, and record
creation on an absent address. -/
theorem c8_store_merge_witness :
    lookupM (write_minions storeRich "10.0.0.3" "imaging" (some "ready") none false none none
        "2025-01-02T09:00:00" "2025-01-02") "10.0.0.3"
      = some { status := some "imaging"
               last_accessed := some "2025-01-02T09:00:00"
               last_update := some "2025-01-01"
               camera1 := { status := some "ready", last_captured := some "2025-01-02T09:00:00",
                            camera_pos := some "X3Y4" }
               camera2 := { status := some "failed", last_captured := some "2025-01-01T08:05:00",
                            camera_pos := some "X3Y5" } }
      ∧ lookupM (write_minions [] "10.0.0.4" "online" (some "ready") none false none none "T" "D")
          "10.0.0.4"
        = some { status := some "online", last_accessed := some "T", last_update := none
                 camera1 := { status := some "ready", last_captured := some "T", camera_pos := none }
                 camera2 := {} } := by
  refine ⟨?_, ?_⟩
  · have h := (c8_store_merge storeRich "10.0.0.3" "imaging" "ready"
      "2025-01-02T09:00:00" "2025-01-02").1 mRich (by decide) (by decide)
    rw [h]
    decide
  · exact (c8_store_merge [] "10.0.0.4" "online" "ready" "T" "D").2 (by decide) (by decide)

/-- C10: the store write tests only truthiness of the four optional
camera arguments, so an empty string behaves exactly like omission —
each of the four arguments can be replaced by `none` without changing
the result — hence a camera status or position can never be cleared
(set to absent) or set to the empty string by a write; and whenever a
camera status is supplied (truthy), that camera's `last_captured` is
refreshed to the current time. -/
theorem c10_write_truthiness :
    (∀ (store : Store) (ip s : String) (c2 : Option String) (u : Bool)
        (p1 p2 : Option String) (now today : String),
        write_minions store ip s (some "") c2 u p1 p2 now today
          = write_minions store ip s none c2 u p1 p2 now today)
      ∧ (∀ (store : Store) (ip s : String) (c1 : Option String) (u : Bool)
          (p1 p2 : Option String) (now today : String),
          write_minions store ip s c1 (some "") u p1 p2 now today
            = write_minions store ip s c1 none u p1 p2 now today)
      ∧ (∀ (store : Store) (ip s : String) (c1 c2 : Option String) (u : Bool)
          (p2 : Option String) (now today : String),
          write_minions store ip s c1 c2 u (some "") p2 now today
            = write_minions store ip s c1 c2 u none p2 now today)
      ∧ (∀ (store : Store) (ip s : String) (c1 c2 : Option String) (u : Bool)
          (p1 : Option String) (now today : String),
          write_minions store ip s c1 c2 u p1 (some "") now today
            = write_minions store ip s c1 c2 u p1 none now today)
      ∧ (∀ (old : Option Minion) (s : String) (c1 c2 : Option String) (u : Bool)
          (p1 p2 : Option String) (now today : String),
          (truthy c1 = true →
              (updateMinionRecord old s c1 c2 u p1 p2 now today).camera1.status = c1
                ∧ (updateMinionRecord old s c1 c2 u p1 p2 now today).camera1.last_captured = some now
                ∧ c1 ≠ none ∧ c1 ≠ some "")
            ∧ (truthy c1 = false →
              (updateMinionRecord old s c1 c2 u p1 p2 now today).camera1.status
                  = (old.getD {}).camera1.status
                ∧ (updateMinionRecord old s c1 c2 u p1 p2 now today).camera1.last_captured
                  = (old.getD {}).camera1.last_captured)
            ∧ (truthy c2 = true →
              (updateMinionRecord old s c1 c2 u p1 p2 now today).camera2.status = c2
                ∧ (updateMinionRecord old s c1 c2 u p1 p2 now today).camera2.last_captured = some now
                ∧ c2 ≠ none ∧ c2 ≠ some "")
            ∧ (truthy c2 = false →
              (updateMinionRecord old s c1 c2 u p1 p2 now today).camera2.status
                  = (old.getD {}).camera2.status
                ∧ (updateMinionRecord old s c1 c2 u p1 p2 now today).camera2.last_captured
                  = (old.getD {}).camera2.last_captured)
            ∧ (truthy p1 = true →
              (updateMinionRecord old s c1 c2 u p1 p2 now today).camera1.camera_pos = p1
                ∧ p1 ≠ none ∧ p1 ≠ some "")
            ∧ (truthy p1 = false →
              (updateMinionRecord old s c1 c2 u p1 p2 now today).camera1.camera_pos
                = (old.getD {}).camera1.camera_pos)
            ∧ (truthy p2 = true →
              (updateMinionRecord old s c1 c2 u p1 p2 now today).camera2.camera_pos = p2
                ∧ p2 ≠ none ∧ p2 ≠ some "")
            ∧ (truthy p2 = false →
              (updateMinionRecord old s c1 c2 u p1 p2 now today).camera2.camera_pos
                = (old.getD {}).camera2.camera_pos)) := by
  refine ⟨?_, ?_, ?_, ?_, ?_⟩
  · intro store ip s c2 u p1 p2 now today
    simp [write_minions, updateMinionRecord, truthy_empty_str, truthy_none]
  · intro store ip s c1 u p1 p2 now today
    simp [write_minions, updateMinionRecord, truthy_empty_str, truthy_none]
  · intro store ip s c1 c2 u p2 now today
    simp [write_minions, updateMinionRecord, truthy_empty_str, truthy_none]
  · intro store ip s c1 c2 u p1 now today
    simp [write_minions, updateMinionRecord, truthy_empty_str, truthy_none]
  · intro old s c1 c2 u p1 p2 now today
    refine ⟨fun ht => ?_, fun ht => ?_, fun ht => ?_, fun ht => ?_,
      fun ht => ?_, fun ht => ?_, fun ht => ?_, fun ht => ?_⟩ <;>
      first
        | simp [updateMinionRecord, ht, truthy_ne_empty _ ht]
        | simp [updateMinionRecord, ht]

/-- C10 witness: replacing every optional camera argument by the empty
string equals omitting them all; a supplied camera1 status refreshes
that camera's `last_captured`. -/
theorem c10_write_truthiness_witness :
    write_minions storeRich "10.0.0.3" "ready" (some "") (some "") false (some "") (some "") "T" "D"
        = write_minions storeRich "10.0.0.3" "ready" none none false none none "T" "D"
      ∧ (updateMinionRecord (some mRich) "ready" (some "ok") none false none none "T" "D").camera1.last_captured
        = some "T" := by
  refine ⟨?_, ?_⟩
  · rw [c10_write_truthiness.1, c10_write_truthiness.2.1, c10_write_truthiness.2.2.1,
      c10_write_truthiness.2.2.2.1]
  · exact ((c10_write_truthiness.2.2.2.2 (some mRich) "ready" (some "ok") none false none none
      "T" "D").1 (by decide)).2.1

/-- The default-record detour of `Option.getD` agrees with `Option.bind`
on the `last_update` field. -/
theorem getD_last_update_eq_bind (o : Option Minion) :
    (o.getD {}).last_update = o.bind Minion.last_update := by
  cases o <;> rfl

/-- C3 counterexample: the claim says stages are combined fail-fast
within a stage, but `update_minion` builds each stage's Python list
`[op, op, ...]` eagerly before `all(...)`: with every remote operation
failing, all five config-stage operations are still performed, not just
the first. -/
theorem c3_update_stages_cex :
    (update_minion [] "10.0.0.2" (fun _ => false) "T" "D").performed = [0, 1, 2, 3, 4]
      ∧ (update_minion [] "10.0.0.2" (fun _ => false) "T" "D").performed ≠ [0] := by
  decide

/-- C3 (amended): the three stages run in the fixed order config, core,
services; within a stage every remote operation is performed and the
results are conjoined (no short-circuit inside a stage); on the first
failing stage `failed_config` / `failed_core` / `failed_services` is
committed without the confirm flag (`last_update` unchanged), later
stages are not attempted, and false is returned; if all stages succeed,
`online` is committed with the confirm flag (`last_update` becomes the
current date) and true is returned. -/
theorem c3_update_stages_amended (store : Store) (ip : String) (exec : Nat → Bool)
    (now today : String) :
    ([exec 0, exec 1, exec 2, exec 3, exec 4].all (fun b => b) = false →
        (update_minion store ip exec now today).performed = [0, 1, 2, 3, 4]
          ∧ (update_minion store ip exec now today).ret = false
          ∧ (lookupM (update_minion store ip exec now today).store ip).bind Minion.status
              = some "failed_config"
          ∧ (lookupM (update_minion store ip exec now today).store ip).bind Minion.last_update
              = (lookupM store ip).bind Minion.last_update)
      ∧ ([exec 0, exec 1, exec 2, exec 3, exec 4].all (fun b => b) = true →
          [exec 5, exec 6].all (fun b => b) = false →
        (update_minion store ip exec now today).performed = [0, 1, 2, 3, 4, 5, 6]
          ∧ (update_minion store ip exec now today).ret = false
          ∧ (lookupM (update_minion store ip exec now today).store ip).bind Minion.status
              = some "failed_core"
          ∧ (lookupM (update_minion store ip exec now today).store ip).bind Minion.last_update
              = (lookupM store ip).bind Minion.last_update)
      ∧ ([exec 0, exec 1, exec 2, exec 3, exec 4].all (fun b => b) = true →
          [exec 5, exec 6].all (fun b => b) = true →
          [exec 7, exec 8].all (fun b => b) = false →
        (update_minion store ip exec now today).performed = [0, 1, 2, 3, 4, 5, 6, 7, 8]
          ∧ (update_minion store ip exec now today).ret = false
          ∧ (lookupM (update_minion store ip exec now today).store ip).bind Minion.status
              = some "failed_services"
          ∧ (lookupM (update_minion store ip exec now today).store ip).bind Minion.last_update
              = (lookupM store ip).bind Minion.last_update)
      ∧ ([exec 0, exec 1, exec 2, exec 3, exec 4].all (fun b => b) = true →
          [exec 5, exec 6].all (fun b => b) = true →
          [exec 7, exec 8].all (fun b => b) = true →
        (update_minion store ip exec now today).performed = [0, 1, 2, 3, 4, 5, 6, 7, 8]
          ∧ (update_minion store ip exec now today).ret = true
          ∧ (lookupM (update_minion store ip exec now today).store ip).bind Minion.status
              = some "online"
          ∧ (lookupM (update_minion store ip exec now today).store ip).bind Minion.last_update
              = some today) := by
  refine ⟨fun h1 => ?_, fun h1 h2 => ?_, fun h1 h2 h3 => ?_, fun h1 h2 h3 => ?_⟩
  · simp [update_minion, h1, lookupM_write_self, updateMinionRecord_status,
      updateMinionRecord_last_update, getD_last_update_eq_bind]
  · simp [update_minion, h1, h2, lookupM_write_self, updateMinionRecord_status,
      updateMinionRecord_last_update, getD_last_update_eq_bind]
  · simp [update_minion, h1, h2, h3, lookupM_write_self, updateMinionRecord_status,
      updateMinionRecord_last_update, getD_last_update_eq_bind]
  · simp [update_minion, h1, h2, h3, lookupM_write_self, updateMinionRecord_status,
      updateMinionRecord_last_update]

/-- C3 witness: with operation 3 failing the config stage still performs
all five operations, commits `failed_config` unconfirmed and returns
false; with all operations succeeding `online` is committed confirmed
and true returned. -/
theorem c3_update_stages_amended_witness :
    (update_minion [] "10.0.0.2" (fun n => decide (n ≠ 3)) "T" "2025-01-02").performed
        = [0, 1, 2, 3, 4]
      ∧ (update_minion [] "10.0.0.2" (fun n => decide (n ≠ 3)) "T" "2025-01-02").ret = false
      ∧ (lookupM (update_minion [] "10.0.0.2" (fun n => decide (n ≠ 3)) "T" "2025-01-02").store
          "10.0.0.2").bind Minion.status = some "failed_config"
      ∧ (update_minion [] "10.0.0.2" (fun _ => true) "T" "2025-01-02").ret = true
      ∧ (lookupM (update_minion [] "10.0.0.2" (fun _ => true) "T" "2025-01-02").store
          "10.0.0.2").bind Minion.last_update = some "2025-01-02" := by
  have hfail := (c3_update_stages_amended [] "10.0.0.2" (fun n => decide (n ≠ 3))
    "T" "2025-01-02").1 (by decide)
  have hok := (c3_update_stages_amended [] "10.0.0.2" (fun _ => true)
    "T" "2025-01-02").2.2.2 (by decide) (by decide) (by decide)
  exact ⟨hfail.1, hfail.2.1, hfail.2.2.1, hok.2.1, hok.2.2.2⟩

/-- `update_minion` writes only its own key. -/
theorem update_minion_lookup_ne (store : Store) (ip ip' : String) (exec : Nat → Bool)
    (now today : String) (h : ip' ≠ ip) :
    lookupM (update_minion store ip exec now today).store ip' = lookupM store ip' := by
  cases hc1 : [exec 0, exec 1, exec 2, exec 3, exec 4].all (fun b => b) with
  | false => simp [update_minion, hc1, lookupM_write_ne _ _ _ _ _ _ _ _ _ _ _ h]
  | true =>
    cases hc2 : [exec 5, exec 6].all (fun b => b) with
    | false => simp [update_minion, hc1, hc2, lookupM_write_ne _ _ _ _ _ _ _ _ _ _ _ h]
    | true =>
      cases hc3 : [exec 7, exec 8].all (fun b => b) with
      | false => simp [update_minion, hc1, hc2, hc3, lookupM_write_ne _ _ _ _ _ _ _ _ _ _ _ h]
      | true => simp [update_minion, hc1, hc2, hc3, lookupM_write_ne _ _ _ _ _ _ _ _ _ _ _ h]

/-- A device whose `last_update` already equals `today` is never
contacted by a force-free fleet pass, and each of its occurrences in the
lease list is counted as skipped. -/
theorem fleet_no_contact (ips : List String) :
    ∀ (store : Store) (exec : String → Nat → Bool) (now today ip : String),
    (lookupM store ip).bind Minion.last_update = some today →
    ip ∉ (update_all_minions store ips exec false now today).contacted
      ∧ List.count ip ips ≤ (update_all_minions store ips exec false now today).stats.skipped := by
  induction ips with
  | nil =>
    intro store exec now today ip _
    simp [update_all_minions]
  | cons ip0 rest ih =>
    intro store exec now today ip hlu
    by_cases he : ip0 = ip
    · subst he
      have hr : has_run_today store ip0 today = true := by
        cases hm : lookupM store ip0 with
        | none => rw [hm] at hlu; simp at hlu
        | some m =>
          rw [hm] at hlu
          simp only [Option.some_bind] at hlu
          simp [has_run_today, hm, hlu]
      have hcond : (!has_run_today store ip0 today || false) = false := by rw [hr]; rfl
      have hrec := ih store exec now today ip0 hlu
      simp only [update_all_minions, hcond, Bool.false_eq_true, if_false]
      refine ⟨hrec.1, ?_⟩
      rw [List.count_cons_self]
      omega
    · have hne : ip ≠ ip0 := fun hh => he hh.symm
      cases hr : has_run_today store ip0 today with
      | true =>
        have hcond : (!has_run_today store ip0 today || false) = false := by rw [hr]; rfl
        have hrec := ih store exec now today ip hlu
        simp only [update_all_minions, hcond, Bool.false_eq_true, if_false]
        refine ⟨hrec.1, ?_⟩
        rw [List.count_cons_of_ne hne]
        omega
      | false =>
        have hcond : (!has_run_today store ip0 today || false) = true := by rw [hr]; rfl
        have hlu' : (lookupM (update_minion store ip0 (exec ip0) now today).store ip).bind
            Minion.last_update = some today := by
          rw [update_minion_lookup_ne store ip0 ip (exec ip0) now today hne]
          exact hlu
        have hrec := ih (update_minion store ip0 (exec ip0) now today).store exec now today ip hlu'
        simp only [update_all_minions, hcond, if_true]
        refine ⟨?_, ?_⟩
        · intro hmem
          rcases List.mem_cons.mp hmem with h | h
          · exact hne h
          · exact hrec.1 h
        · rw [List.count_cons_of_ne hne]
          exact hrec.2

/-- C6: a device whose stored `last_update` equals the current date is
skipped entirely by a force-free fleet update pass — `update_minion` is
never invoked on it (so no remote operation is performed against it)
and each of its occurrences is counted as skipped; consequently, after
a first update run that succeeds on a device, a second force-free pass
the same day makes no remote contact with that device. -/
theorem c6_update_gate :
    (∀ (store : Store) (ips : List String) (exec : String → Nat → Bool)
        (now today ip : String) (m : Minion),
        lookupM store ip = some m → m.last_update = some today →
        ip ∉ (update_all_minions store ips exec false now today).contacted
          ∧ List.count ip ips ≤ (update_all_minions store ips exec false now today).stats.skipped)
      ∧ (∀ (store : Store) (ip : String) (execFirst : Nat → Bool) (exec : String → Nat → Bool)
          (ips : List String) (now today : String),
          (update_minion store ip execFirst now today).ret = true →
          ip ∉ (update_all_minions (update_minion store ip execFirst now today).store
            ips exec false now today).contacted) := by
  constructor
  · intro store ips exec now today ip m hm hlu
    exact fleet_no_contact ips store exec now today ip (by rw [hm]; simp [hlu])
  · intro store ip execFirst exec ips now today hret
    have hlu : (lookupM (update_minion store ip execFirst now today).store ip).bind
        Minion.last_update = some today := by
      cases hc1 : [execFirst 0, execFirst 1, execFirst 2, execFirst 3, execFirst 4].all (fun b => b) with
      | false => simp [update_minion, hc1] at hret
      | true =>
        cases hc2 : [execFirst 5, execFirst 6].all (fun b => b) with
        | false => simp [update_minion, hc1, hc2] at hret
        | true =>
          cases hc3 : [execFirst 7, execFirst 8].all (fun b => b) with
          | false => simp [update_minion, hc1, hc2, hc3] at hret
          | true =>
            simp [update_minion, hc1, hc2, hc3, lookupM_write_self,
              updateMinionRecord_last_update]
    exact (fleet_no_contact ips _ exec now today ip hlu).1

/-- A device record already updated today (2025-01-02). -/
def mToday : Minion :=
  { status := some "online"
    last_accessed := some "2025-01-02T07:00:00"
    last_update := some "2025-01-02"
    camera1 := {}
    camera2 := {} }

/-- Store holding the already-updated device. -/
def storeToday : Store := [("10.0.0.7", mToday)]

/-- C6 witness: in a two-device pass the device updated today is not
contacted and counts as skipped. -/
theorem c6_update_gate_witness :
    "10.0.0.7" ∉ (update_all_minions storeToday ["10.0.0.7", "10.0.0.8"]
        (fun _ _ => true) false "T" "2025-01-02").contacted
      ∧ 1 ≤ (update_all_minions storeToday ["10.0.0.7", "10.0.0.8"]
          (fun _ _ => true) false "T" "2025-01-02").stats.skipped := by
  have h := c6_update_gate.1 storeToday ["10.0.0.7", "10.0.0.8"] (fun _ _ => true)
    "T" "2025-01-02" "10.0.0.7" mToday (by decide) (by decide)
  have hc : List.count "10.0.0.7" ["10.0.0.7", "10.0.0.8"] = 1 := by decide
  exact ⟨h.1, hc ▸ h.2⟩

/-- Coordinate strings built by `monitor_position` are never empty. -/
theorem truthy_posStr (x y : Int) : truthy (some (posStr x y)) = true := by
  have hx : ("X" : String).data = ['X'] := rfl
  simp [truthy, posStr, String.data_append, hx]

/-- Whenever some pending device signals, the polling loop assigns the
coordinates to exactly one signaling pending device: the store receives
a single commit for that winner and the request file is cleared on the
whole snapshot.  Which pending device wins depends on the iteration
order, so only its existence and its properties are stated. -/
theorem monitor_go_finds (snapshot : List String) (signals : String → Bool)
    (x y : Int) (now today : String) :
    ∀ (pending : List String) (polledRev : List String) (store : Store),
    (∃ ip ∈ pending, signals ip = true) →
    ∃ w, signals w = true ∧ w ∈ pending
      ∧ (monitor_go snapshot pending polledRev store signals x y now today).assigned = some w
      ∧ (monitor_go snapshot pending polledRev store signals x y now today).cleared = snapshot
      ∧ (monitor_go snapshot pending polledRev store signals x y now today).store
          = write_minions store w "online" none none false
              (some (posStr x y)) (some (posStr x (y + 1))) now today := by
  intro pending
  induction pending with
  | nil =>
    intro polledRev store h
    simp at h
  | cons p rest ih =>
    intro polledRev store hsig
    cases hp : signals p with
    | true =>
      refine ⟨p, hp, by simp, ?_, ?_, ?_⟩ <;> simp [monitor_go, hp]
    | false =>
      have hsig' : ∃ ip ∈ rest, signals ip = true := by
        obtain ⟨q, hq, hqs⟩ := hsig
        rcases List.mem_cons.mp hq with h | h
        · subst h
          simp [hp] at hqs
        · exact ⟨q, h, hqs⟩
      obtain ⟨w, hw, hwmem, ha, hc, hst⟩ := ih (p :: polledRev) store hsig'
      refine ⟨w, hw, by simp [hwmem], ?_, ?_, ?_⟩ <;>
        simp only [monitor_go, hp, Bool.false_eq_true, if_false] <;>
        assumption

/-- C4 counterexample: the claim says the workflow polls exactly the
devices lacking an assigned camera position and commits with the confirm
flag set, but `monitor_position` polls `set(minions.keys())` — all
devices (the source carries `TODO capture positioned minions`) — so a
fully positioned device is polled, wins the assignment, and its
`last_update` stays null because the commit does not set the confirm
flag.  The snapshot here holds a single device, so its one-element key
set has exactly one iteration order and this run is the program's
behavior regardless of Python's set ordering. -/
theorem c4_positioning_cex :
    (lookupM storePositioned "10.0.0.5").bind (fun m => m.camera1.camera_pos) = some "X1Y1"
      ∧ (lookupM storePositioned "10.0.0.5").bind (fun m => m.camera2.camera_pos) = some "X1Y2"
      ∧ (monitor_position_pass storePositioned ["10.0.0.5"] (fun _ => true) 1 1 "T" "D").assigned
          = some "10.0.0.5"
      ∧ (monitor_position_pass storePositioned ["10.0.0.5"] (fun _ => true) 1 1 "T" "D").polled
          = ["10.0.0.5"]
      ∧ (lookupM (monitor_position_pass storePositioned ["10.0.0.5"] (fun _ => true) 1 1 "T" "D").store
          "10.0.0.5").bind Minion.last_update = none := by
  decide

/-- C4 (amended): a positioning pass polls the devices of the whole
store snapshot in an arbitrary iteration order (Python set iteration;
positioned devices are not excluded — `TODO` in the source); whenever
some device signals, exactly one signaling device of the snapshot —
which one depends on the iteration order — is committed camera1 = the
given coordinate and camera2 = the coordinate with Y incremented by 1,
with status `online` but without the confirm flag (`last_update`
unchanged); the request marker is cleared on every device of the
snapshot, no other device's record changes, and the pass terminates
after that one assignment — with two devices signaling simultaneously,
exactly one receives coordinates.  The statement quantifies over every
enumeration `order` of the snapshot's keys. -/
theorem c4_positioning_amended (store : Store) (order : List String)
    (signals : String → Bool) (x y : Int) (now today : String)
    (horder : order.Perm (store.map Prod.fst))
    (hsig : ∃ ip ∈ order, signals ip = true) :
    ∃ w, signals w = true
      ∧ w ∈ store.map Prod.fst
      ∧ (monitor_position_pass store order signals x y now today).assigned = some w
      ∧ (monitor_position_pass store order signals x y now today).cleared = order
      ∧ (∀ ip ∈ store.map Prod.fst,
          ip ∈ (monitor_position_pass store order signals x y now today).cleared)
      ∧ (lookupM (monitor_position_pass store order signals x y now today).store w).bind
          Minion.status = some "online"
      ∧ (lookupM (monitor_position_pass store order signals x y now today).store w).bind
          (fun m => m.camera1.camera_pos) = some (posStr x y)
      ∧ (lookupM (monitor_position_pass store order signals x y now today).store w).bind
          (fun m => m.camera2.camera_pos) = some (posStr x (y + 1))
      ∧ (lookupM (monitor_position_pass store order signals x y now today).store w).bind
          Minion.last_update = (lookupM store w).bind Minion.last_update
      ∧ (∀ ip, ip ≠ w →
          lookupM (monitor_position_pass store order signals x y now today).store ip
            = lookupM store ip) := by
  obtain ⟨w, hw, hwmem, ha, hc, hst⟩ :=
    monitor_go_finds order signals x y now today order [] store hsig
  simp only [monitor_position_pass]
  refine ⟨w, hw, horder.mem_iff.mp hwmem, ha, hc, ?_, ?_, ?_, ?_, ?_, ?_⟩
  · intro ip hip
    rw [hc]
    exact horder.mem_iff.mpr hip
  · simp [hst, lookupM_write_self, updateMinionRecord_status]
  · simp [hst, lookupM_write_self, updateMinionRecord, truthy_posStr, truthy_none]
  · simp [hst, lookupM_write_self, updateMinionRecord, truthy_posStr, truthy_none]
  · simp [hst, lookupM_write_self, updateMinionRecord_last_update, getD_last_update_eq_bind]
  · intro ip hip
    simp [hst, lookupM_write_ne _ _ _ _ _ _ _ _ _ _ _ hip]

/-- C4 witness: two bare devices, both signaling, iterated in the order
`["B", "A"]` (a nontrivial enumeration of the snapshot's key set):
exactly one device receives the coordinate pair (camera2 with Y+1,
status online, confirm flag unset), every other record is untouched, and
both request markers are cleared. -/
theorem c4_positioning_amended_witness :
    ∃ w, (fun _ => true : String → Bool) w = true
      ∧ w ∈ ([("A", mBare), ("B", mBare)] : Store).map Prod.fst
      ∧ (monitor_position_pass [("A", mBare), ("B", mBare)] ["B", "A"]
          (fun _ => true) 1 1 "T" "D").assigned = some w
      ∧ (monitor_position_pass [("A", mBare), ("B", mBare)] ["B", "A"]
          (fun _ => true) 1 1 "T" "D").cleared = ["B", "A"]
      ∧ (∀ ip ∈ ([("A", mBare), ("B", mBare)] : Store).map Prod.fst,
          ip ∈ (monitor_position_pass [("A", mBare), ("B", mBare)] ["B", "A"]
            (fun _ => true) 1 1 "T" "D").cleared)
      ∧ (lookupM (monitor_position_pass [("A", mBare), ("B", mBare)] ["B", "A"]
          (fun _ => true) 1 1 "T" "D").store w).bind Minion.status = some "online"
      ∧ (lookupM (monitor_position_pass [("A", mBare), ("B", mBare)] ["B", "A"]
          (fun _ => true) 1 1 "T" "D").store w).bind (fun m => m.camera1.camera_pos)
          = some (posStr 1 1)
      ∧ (lookupM (monitor_position_pass [("A", mBare), ("B", mBare)] ["B", "A"]
          (fun _ => true) 1 1 "T" "D").store w).bind (fun m => m.camera2.camera_pos)
          = some (posStr 1 (1 + 1))
      ∧ (lookupM (monitor_position_pass [("A", mBare), ("B", mBare)] ["B", "A"]
          (fun _ => true) 1 1 "T" "D").store w).bind Minion.last_update
          = (lookupM [("A", mBare), ("B", mBare)] w).bind Minion.last_update
      ∧ (∀ ip, ip ≠ w →
          lookupM (monitor_position_pass [("A", mBare), ("B", mBare)] ["B", "A"]
            (fun _ => true) 1 1 "T" "D").store ip
            = lookupM [("A", mBare), ("B", mBare)] ip) :=
  c4_positioning_amended [("A", mBare), ("B", mBare)] ["B", "A"] (fun _ => true) 1 1 "T" "D"
    (by decide) ⟨"B", by decide, rfl⟩

/-! ## Parsing lemmas for the failed-camera scan -/

theorem string_mk_data (s : String) : String.mk s.data = s := rfl

theorem isPrefixL_append (p t : List Char) : isPrefixL p (p ++ t) = true := by
  induction p with
  | nil => rfl
  | cons a as ih => simp [isPrefixL, ih]

/-- When the separator occurs nowhere in `t`, the split worker returns a
single segment, independently of the fuel supplied. -/
theorem splitLAux_no_sep (sc : Char) (sep : List Char) (t : List Char)
    (h : hasSubL (sc :: sep) t = false) :
    ∀ (fuel : Nat) (acc : List Char), splitLAux sc sep fuel t acc = [acc.reverse ++ t] := by
  induction t with
  | nil =>
    intro fuel acc
    cases fuel <;> simp [splitLAux]
  | cons c rest ih =>
    intro fuel acc
    have hpre : isPrefixL (sc :: sep) (c :: rest) = false := by
      by_contra hcon
      rw [Bool.not_eq_false] at hcon
      simp [hasSubL, hcon] at h
    have hrest : hasSubL (sc :: sep) rest = false := by
      by_contra hcon
      rw [Bool.not_eq_false] at hcon
      simp [hasSubL, hcon] at h
    cases fuel with
    | zero => simp [splitLAux]
    | succ f =>
      simp only [splitLAux, hpre, Bool.false_eq_true, if_false]
      rw [ih hrest f (c :: acc)]
      simp

theorem pySplit_marker_eq (s : String) :
    pySplit s "Failed cameras:"
      = (splitLAux 'F' ("ailed cameras:" : String).data s.data.length s.data []).map String.mk := rfl

/-- Splitting `"Failed cameras:" ++ t` on the marker, with `t` itself
marker-free, yields exactly the segments `""` and `t`. -/
theorem pySplit_marker_append (t : String) (h : hasSubstr t "Failed cameras:" = false) :
    pySplit ("Failed cameras:" ++ t) "Failed cameras:" = ["", t] := by
  have hM : ("Failed cameras:" : String).data = 'F' :: ("ailed cameras:" : String).data := rfl
  have hsub : hasSubL ('F' :: ("ailed cameras:" : String).data) t.data = false := by
    simp only [hasSubstr] at h
    exact h
  rw [pySplit_marker_eq, String.data_append, hM, List.cons_append, List.length_cons]
  have hpre := isPrefixL_append ('F' :: ("ailed cameras:" : String).data) t.data
  rw [List.cons_append] at hpre
  simp only [splitLAux, hpre, if_true]
  rw [List.drop_left]
  rw [splitLAux_no_sep 'F' ("ailed cameras:" : String).data t.data hsub]
  simp [string_mk_data]

theorem parseFailedLine_marker (t : String) (h : hasSubstr t "Failed cameras:" = false) :
    parseFailedLine ("Failed cameras:" ++ t) = (pySplit (pyStrip t) ";").map pyStrip := by
  unfold parseFailedLine
  rw [pySplit_marker_append t h]
  simp

theorem scan_last_wins (lines : List String) (l : String)
    (h : hasSubstr l "Failed cameras:" = true) :
    scanFailedCameras (lines ++ [l]) = parseFailedLine l := by
  unfold scanFailedCameras
  rw [List.foldl_append]
  simp [h]

theorem scan_no_marker (lines : List String)
    (h : ∀ l ∈ lines, hasSubstr l "Failed cameras:" = false) :
    scanFailedCameras lines = [] := by
  induction lines with
  | nil => rfl
  | cons l ls ih =>
    have hl := h l (by simp)
    have hls : ∀ q ∈ ls, hasSubstr q "Failed cameras:" = false :=
      fun q hq => h q (by simp [hq])
    simp only [scanFailedCameras, List.foldl_cons, hl, Bool.false_eq_true, if_false]
    exact ih hls

/-- C5 counterexample: the claim says an empty or missing segment after
the marker yields an empty list, but Python `"".split(';')` is `['']`:
a line consisting of the bare marker parses to the one-element list
containing the empty string, not to the empty list. -/
theorem c5_failed_camera_parse_cex :
    parse_failed_cameras "Partial success\nFailed cameras:" = [""]
      ∧ parse_failed_cameras "Partial success\nFailed cameras:" ≠ [] := by
  decide

/-- C5 (amended): the failed-camera list is parsed from lines containing
`Failed cameras:` by splitting the text after the marker on `;` and
trimming each segment, preserving order and duplicates; when several
such lines occur the last one wins; output without any marker line
yields the empty list; but an empty or missing segment after the marker
yields the one-element list containing the empty string (which joins to
the same committed detail `""` as an empty list would), not the empty
list. -/
theorem c5_failed_camera_parse_amended :
    (∀ (lines : List String) (l : String), hasSubstr l "Failed cameras:" = true →
        scanFailedCameras (lines ++ [l]) = parseFailedLine l)
      ∧ (∀ t : String, hasSubstr t "Failed cameras:" = false →
        parseFailedLine ("Failed cameras:" ++ t) = (pySplit (pyStrip t) ";").map pyStrip)
      ∧ (∀ lines : List String, (∀ l ∈ lines, hasSubstr l "Failed cameras:" = false) →
        scanFailedCameras lines = [])
      ∧ parseFailedLine "Failed cameras:" = [""]
      ∧ String.intercalate ", " [""] = String.intercalate ", " ([] : List String) :=
  ⟨scan_last_wins, parseFailedLine_marker, scan_no_marker, by decide, by decide⟩

/-- C5 witness: the last marker line wins; splitting preserves order,
duplicates and empty segments after trimming; marker-free output scans
to the empty list. -/
theorem c5_failed_camera_parse_amended_witness :
    scanFailedCameras ["Failed cameras: a", "Failed cameras: cam1; cam2 "] = ["cam1", "cam2"]
      ∧ parseFailedLine ("Failed cameras:" ++ " cam2; cam2; ; cam1") = ["cam2", "cam2", "", "cam1"]
      ∧ scanFailedCameras ["no marker here"] = [] := by
  refine ⟨?_, ?_, ?_⟩
  · have heq : (["Failed cameras: a"] ++ ["Failed cameras: cam1; cam2 "] : List String)
        = ["Failed cameras: a", "Failed cameras: cam1; cam2 "] := rfl
    have h := c5_failed_camera_parse_amended.1 ["Failed cameras: a"]
      "Failed cameras: cam1; cam2 " (by decide)
    rw [← heq, h]
    decide
  · have h := c5_failed_camera_parse_amended.2.1 " cam2; cam2; ; cam1" (by decide)
    rw [h]
    decide
  · exact c5_failed_camera_parse_amended.2.2.1 ["no marker here"] (by decide)

end MinCon
